import Mathlib

/-!
Shallow embedding of the hybrid quantum-classical exam-topic prediction core
of this repository (src/services/vqe_predictor.py and the prediction endpoint
of src/api/main.py), together with theorems settling the frozen claims.

Modelling conventions:
* Python floats are modelled as exact rationals (`ℚ`).
* Python's `round(x, 4)` (round half to even on the 4th decimal) is modelled
  by `round4` below.
* The external VQE eigensolver (Qiskit) is opaque: its eigenvalue output is a
  parameter.  `np.polyfit(x, y, 1)` is modelled by the closed-form degree-1
  least-squares solution, which is what it computes.
* Square roots (`np.std`) are irrational in general, so the standard
  deviation / standard error is passed as a parameter `s` constrained by
  `0 ≤ s ∧ s ^ 2 = <the variance the source computes>`.
-/

namespace VQE

/-- Round half to even at integer resolution, as Python's `round` does.
`⌊q⌋` when the fractional part is below `1/2`, `⌊q⌋ + 1` above `1/2`,
and the even neighbour at exactly `1/2`. -/
def roundHalfEven (q : ℚ) : ℤ :=
  let f := ⌊q⌋
  let r := q - (f : ℚ)
  if r < 1/2 then f
  else if 1/2 < r then f + 1
  else if Even f then f else f + 1

/-- Python's `round(x, 4)`: round half to even on the fourth decimal. -/
def round4 (q : ℚ) : ℚ := (roundHalfEven (q * 10000) : ℚ) / 10000

theorem roundHalfEven_le_of_floor_lt {x y : ℚ} (h : ⌊x⌋ < ⌊y⌋) :
    roundHalfEven x ≤ roundHalfEven y := by
  have hx : roundHalfEven x ≤ ⌊x⌋ + 1 := by
    unfold roundHalfEven
    dsimp only
    split
    · omega
    · split
      · omega
      · split <;> omega
  have hy : ⌊y⌋ ≤ roundHalfEven y := by
    unfold roundHalfEven
    dsimp only
    split
    · omega
    · split
      · omega
      · split <;> omega
  omega

theorem roundHalfEven_mono {x y : ℚ} (h : x ≤ y) :
    roundHalfEven x ≤ roundHalfEven y := by
  rcases lt_or_eq_of_le (Int.floor_le_floor h : ⌊x⌋ ≤ ⌊y⌋) with hf | hf
  · exact roundHalfEven_le_of_floor_lt hf
  · -- same integer part: compare the fractional parts
    unfold roundHalfEven
    dsimp only
    rw [hf]
    have hr : x - (⌊y⌋ : ℚ) ≤ y - (⌊y⌋ : ℚ) := by linarith
    split_ifs <;> first | omega | (exfalso; linarith)

theorem round4_mono {x y : ℚ} (h : x ≤ y) : round4 x ≤ round4 y := by
  unfold round4
  have := roundHalfEven_mono (x := x * 10000) (y := y * 10000) (by nlinarith)
  have hc : ((roundHalfEven (x * 10000) : ℚ)) ≤ ((roundHalfEven (y * 10000) : ℚ)) := by
    exact_mod_cast this
  linarith

theorem roundHalfEven_intCast (n : ℤ) : roundHalfEven (n : ℚ) = n := by
  unfold roundHalfEven
  dsimp only
  rw [Int.floor_intCast]
  norm_num

theorem round4_nonneg {x : ℚ} (h : 0 ≤ x) : 0 ≤ round4 x := by
  have h0 : roundHalfEven ((0 : ℤ) : ℚ) ≤ roundHalfEven (x * 10000) :=
    roundHalfEven_mono (by push_cast; nlinarith)
  rw [roundHalfEven_intCast] at h0
  unfold round4
  have : (0 : ℚ) ≤ (roundHalfEven (x * 10000) : ℚ) := by exact_mod_cast h0
  linarith

theorem round4_le_one {x : ℚ} (h : x ≤ 1) : round4 x ≤ 1 := by
  have h0 : roundHalfEven (x * 10000) ≤ roundHalfEven ((10000 : ℤ) : ℚ) :=
    roundHalfEven_mono (by push_cast; nlinarith)
  rw [roundHalfEven_intCast] at h0
  unfold round4
  have : (roundHalfEven (x * 10000) : ℚ) ≤ 10000 := by exact_mod_cast h0
  linarith

/-! ### Data model (src/services/vqe_predictor.py, dataclasses) -/

/-- `PredictionResult` dataclass of src/services/vqe_predictor.py. -/
structure PredictionResult where
  topic : String
  importance : ℚ
  confidence_interval : ℚ × ℚ
  trend : String
  method : String
deriving DecidableEq, Repr

/-- `PredictionRequest` dataclass of src/services/vqe_predictor.py. -/
structure PredictionRequest where
  topics : List String
  historical_years : ℕ := 5
  confidence_level : ℚ := 95/100
  force_classical : Bool := false
deriving DecidableEq, Repr

/-- `VQEPredictionResponse` dataclass.  `execution_time_ms` is a wall-clock
measurement around the batch and has no functional content, so it is not
part of the embedding. -/
structure VQEPredictionResponse where
  predictions : List PredictionResult
  fallback_used : Bool
deriving DecidableEq, Repr

/-- The two exception shapes the estimators can surface: the classical
estimator's `ValueError` for fewer than 2 observations, and any failure of
the quantum path (`RuntimeError`, Qiskit errors, ...). -/
inductive PredictionError where
  | insufficientData
  | quantumFailure
deriving DecidableEq, Repr

/-! ### Classical estimator (`VQEPredictor._classical_prediction`)

`np.polyfit(x, y, 1)` with `x = 0 .. n-1` is the degree-1 least-squares fit;
its closed form is `slope = (n·Σxy − Σx·Σy) / (n·Σx² − (Σx)²)` and
`intercept = (Σy − slope·Σx) / n`. -/

/-- Σ of the x-axis indices `0 .. n-1` used by the fit. -/
def sumX (data : List ℚ) : ℚ := ((List.range data.length).map (fun i => (i : ℚ))).sum

/-- Σ of the squared x-axis indices. -/
def sumX2 (data : List ℚ) : ℚ := ((List.range data.length).map (fun i => (i : ℚ) ^ 2)).sum

/-- Σ of the observations. -/
def sumY (data : List ℚ) : ℚ := data.sum

/-- Σ of index·observation products. -/
def sumXY (data : List ℚ) : ℚ := (data.enum.map (fun p => (p.1 : ℚ) * p.2)).sum

/-- The fitted slope of `np.polyfit(x, y, 1)`. -/
def slope (data : List ℚ) : ℚ :=
  ((data.length : ℚ) * sumXY data - sumX data * sumY data) /
    ((data.length : ℚ) * sumX2 data - sumX data ^ 2)

/-- The fitted intercept of `np.polyfit(x, y, 1)`. -/
def intercept (data : List ℚ) : ℚ :=
  (sumY data - slope data * sumX data) / (data.length : ℚ)

/-- `predicted_value = slope * next_x + intercept` with `next_x = len(data)`. -/
def predictedNext (data : List ℚ) : ℚ :=
  slope data * (data.length : ℚ) + intercept data

/-- `residuals = y - (slope * x + intercept)`. -/
def residuals (data : List ℚ) : List ℚ :=
  data.enum.map (fun p => p.2 - (slope data * (p.1 : ℚ) + intercept data))

/-- The square of `np.std(residuals, ddof=2)`:
mean-centred sum of squares over `n - 2` degrees of freedom.
For `n = 2` the source divides by zero (NaN); the `ℚ`-division then yields `0`
here, and `classical_prediction` below handles that case by a dedicated
branch, so this value is never consulted at `n = 2`. -/
def stdErrSq (data : List ℚ) : ℚ :=
  let r := residuals data
  ((r.map (fun t => (t - r.sum / (r.length : ℚ)) ^ 2)).sum) / ((r.length : ℚ) - 2)

/-- The trend label of the classical estimator. -/
def classicalTrend (data : List ℚ) : String :=
  if 0 < slope data then "increasing"
  else if slope data < 0 then "decreasing"
  else "stable"

/-- The successful payload of `VQEPredictor._classical_prediction`.
`s` stands for `np.std(residuals, ddof=2)`, the (irrational in general)
standard error; the theorems constrain it by `0 ≤ s ∧ s ^ 2 = stdErrSq data`.
The source computes `margin = 1.96 * std_error` and never uses the
`confidence_level` argument in this method (the 95% factor is hardcoded).
For `n = 2` the standard error is `0/0 = NaN` (or `+inf` for inexact
residuals), and Python's `max(0.0, NaN)` / `min(1.0, NaN)` (likewise for
`±inf`) evaluate to `0.0` / `1.0`, so the interval degenerates to `(0, 1)`. -/
def classicalOk (topic : String) (data : List ℚ) (confidence_level : ℚ) (s : ℚ) :
    PredictionResult :=
  let pred := predictedNext data
  let importance := round4 (min 1 (max 0 (pred / 100)))
  let margin := (49/25) * s
  let ci : ℚ × ℚ :=
    if data.length = 2 then (0, 1)
    else (round4 (max 0 ((pred - margin) / 100)), round4 (min 1 ((pred + margin) / 100)))
  { topic := topic
    importance := importance
    confidence_interval := ci
    trend := classicalTrend data
    method := "classical" }

/-- `VQEPredictor._classical_prediction`: raises `ValueError` below 2 data
points, otherwise returns the fitted result. -/
def classical_prediction (topic : String) (data : List ℚ) (confidence_level : ℚ)
    (s : ℚ) : Except PredictionError PredictionResult :=
  if data.length < 2 then .error .insufficientData
  else .ok (classicalOk topic data confidence_level s)

/-! ### Quantum estimator tail (`VQEPredictor._quantum_prediction`, lines 236-269)

The VQE eigenvalue itself comes from the external Qiskit eigensolver and is
opaque; it enters as the `eigenvalue` parameter.  Everything after the solver
call (importance rescaling, confidence interval, trend) is embedded. -/

/-- The square of `np.std(data)` (population variance, `ddof = 0`). -/
def popVariance (data : List ℚ) : ℚ :=
  let m := data.sum / (data.length : ℚ)
  ((data.map (fun x => (x - m) ^ 2)).sum) / (data.length : ℚ)

/-- Trend label of the quantum path: compares the last two raw observations,
`"stable"` only when fewer than 2 observations exist. -/
def quantumTrend (data : List ℚ) : String :=
  if 2 ≤ data.length then
    if data.getD (data.length - 2) 0 < data.getD (data.length - 1) 0
    then "increasing" else "decreasing"
  else "stable"

/-- Post-solver part of `VQEPredictor._quantum_prediction`.
`sigma` stands for `np.std(data)`, constrained in the theorems by
`0 ≤ sigma ∧ sigma ^ 2 = popVariance data`. -/
def quantum_prediction (topic : String) (data : List ℚ) (confidence_level : ℚ)
    (eigenvalue : ℚ) (sigma : ℚ) : PredictionResult :=
  let importance := min 1 (max 0 ((eigenvalue + 2) / 4))
  let std_dev := if 1 < data.length then sigma / (data.length : ℚ) else 1/10
  let margin := (49/25) * std_dev * (1 - confidence_level)
  { topic := topic
    importance := round4 importance
    confidence_interval :=
      (round4 (max 0 (importance - margin)), round4 (min 1 (importance + margin)))
    trend := quantumTrend data
    method := "quantum" }

/-! ### Orchestrator (`VQEPredictor.predict_topics`)

The two estimators are passed as function parameters so the theorems can
either quantify over them (failure-injection claims) or instantiate them with
the concrete embeddings above. -/

/-- An estimator: topic, series, confidence level to a result or an
exception. -/
abbrev Estimator := String → List ℚ → ℚ → Except PredictionError PredictionResult

/-- One iteration of the topic loop of `VQEPredictor.predict_topics`:
skip missing or too-short series; run the primary estimator (quantum when
available and not forced classical, classical otherwise); on an exception
retry with the classical estimator and tag `"classical_fallback"`; drop the
topic if that also fails. -/
def predict_topic (quantum classical : Estimator) (quantum_available : Bool)
    (min_historical_years : ℕ) (request : PredictionRequest)
    (historical_data : List (String × List ℚ)) (topic : String) :
    Option PredictionResult :=
  match historical_data.lookup topic with
  | none => none
  | some data =>
    if data.length < min_historical_years then none
    else
      let primary :=
        if quantum_available && !request.force_classical
        then quantum topic data request.confidence_level
        else classical topic data request.confidence_level
      match primary with
      | .ok r => some r
      | .error _ =>
        match classical topic data request.confidence_level with
        | .ok r => some { r with method := "classical_fallback" }
        | .error _ => none

/-- `VQEPredictor.predict_topics`: the per-topic loop plus the batch flag
`fallback_used = any(p.method in ["classical", "classical_fallback"])`. -/
def predict_topics (quantum classical : Estimator) (quantum_available : Bool)
    (min_historical_years : ℕ) (request : PredictionRequest)
    (historical_data : List (String × List ℚ)) : VQEPredictionResponse :=
  let preds := request.topics.filterMap
    (predict_topic quantum classical quantum_available min_historical_years
      request historical_data)
  { predictions := preds
    fallback_used :=
      preds.any (fun p => p.method == "classical" || p.method == "classical_fallback") }

/-- The orchestrator's pre-filter (lines 107-119 of
src/services/vqe_predictor.py) as a predicate: a topic is eligible when it is
present in the historical data with a series of at least
`min_historical_years` observations. -/
def eligibleTopic (minY : ℕ) (historical : List (String × List ℚ)) (t : String) :
    Bool :=
  match historical.lookup t with
  | some d => !(d.length < minY)
  | none => false

/-! ### API-level method selection and response assembly (src/api/main.py) -/

/-- Method selection of the predict endpoint (src/api/main.py, lines 126-139).
The endpoint increments a global `_request_count` just before selecting; the
counter is threaded through here (unused, as in the source) so that
independence from it is statable.  Returns `(method_used, fallback_used)`. -/
def select_method (request_count : ℕ) (force_classical quantum_available : Bool)
    (confidence_level : ℚ) : String × Bool :=
  if force_classical then ("classical", false)
  else if !quantum_available then ("classical", true)
  else if 99/100 ≤ confidence_level then ("quantum", false)
  else ("hybrid", false)

/-- Blend-weight step table of the predict endpoint
(src/api/main.py, lines 188-199 and 234-245):
`(quantum_contribution, classical_contribution)` keyed by confidence level. -/
def hybrid_contributions (confidence_level : ℚ) : ℚ × ℚ :=
  if 95/100 ≤ confidence_level then (9/10, 1/10)
  else if 9/10 ≤ confidence_level then (7/10, 3/10)
  else if 85/100 ≤ confidence_level then (6/10, 4/10)
  else (4/10, 6/10)

/-- A prediction record of the endpoint's response: the base fields plus the
optional hybrid contributions and the optional uncertainty triple
`(quantum_uncertainty, classical_uncertainty, blended_uncertainty)`. -/
structure ApiPrediction where
  topic : String
  importance : ℚ
  confidence_interval : ℚ × ℚ
  trend : String
  method : String
  quantum_contribution : Option ℚ := none
  classical_contribution : Option ℚ := none
  uncertainty_quantification : Option (ℚ × ℚ × ℚ) := none
deriving DecidableEq, Repr

/-- Per-topic prediction assembly of the predict endpoint
(src/api/main.py, lines 168-266): base fields from the latest frequency when
the topic has historical data (zeros and `"unknown"` otherwise), hybrid
contributions from the step table exactly when `method_used == "hybrid"`, and
a hardcoded uncertainty triple for the hybrid and quantum methods. -/
def build_api_prediction (method_used : String) (confidence_level : ℚ)
    (topic : String) (freqs : Option (List ℚ)) : ApiPrediction :=
  let base : ℚ × (ℚ × ℚ) × String :=
    match freqs with
    | some fs =>
      let latest := fs.getD (fs.length - 1) 0
      (round4 (latest / 100),
       (round4 (max 0 (latest - 5) / 100), round4 (min 100 (latest + 5) / 100)),
       if fs.getD 0 0 < latest then "increasing" else "decreasing")
    | none => (0, (0, 0), "unknown")
  let contrib : Option ℚ × Option ℚ :=
    if method_used == "hybrid" then
      (some (hybrid_contributions confidence_level).1,
       some (hybrid_contributions confidence_level).2)
    else (none, none)
  let uq : Option (ℚ × ℚ × ℚ) :=
    if method_used == "hybrid" then some (1/20, 3/100, 1/25)
    else if method_used == "quantum" then some (2/25, 0, 2/25)
    else none
  { topic := topic
    importance := base.1
    confidence_interval := base.2.1
    trend := base.2.2
    method := method_used
    quantum_contribution := contrib.1
    classical_contribution := contrib.2
    uncertainty_quantification := uq }

/-! ### Helper lemmas about the orchestrator loop -/

theorem predict_topic_of_absent (quantum classical : Estimator)
    (qa : Bool) (minY : ℕ) (request : PredictionRequest)
    (historical : List (String × List ℚ)) (t : String)
    (h : historical.lookup t = none) :
    predict_topic quantum classical qa minY request historical t = none := by
  unfold predict_topic
  rw [h]

theorem predict_topic_of_short (quantum classical : Estimator)
    (qa : Bool) (minY : ℕ) (request : PredictionRequest)
    (historical : List (String × List ℚ)) (t : String) (data : List ℚ)
    (h : historical.lookup t = some data) (hshort : data.length < minY) :
    predict_topic quantum classical qa minY request historical t = none := by
  unfold predict_topic
  rw [h]
  simp [hshort]

theorem predict_topics_congr_topics (quantum classical : Estimator)
    (qa : Bool) (minY : ℕ) (request : PredictionRequest)
    (historical : List (String × List ℚ)) (l : List String) :
    (predict_topics quantum classical qa minY { request with topics := l }
        historical).predictions =
      l.filterMap (predict_topic quantum classical qa minY request historical) := by
  rfl

/-- With the concrete classical estimator plugged in, the topic loop emits a
result exactly for the eligible topics: the classical recovery can only fail
on series shorter than 2, which the pre-filter (with `2 ≤ minY`) excludes. -/
theorem predict_topic_isSome_eq (quantum : Estimator) (sfun : List ℚ → ℚ)
    (qa : Bool) (minY : ℕ) (request : PredictionRequest)
    (historical : List (String × List ℚ)) (t : String) (hmin : 2 ≤ minY) :
    (predict_topic quantum (fun t' d c => classical_prediction t' d c (sfun d))
        qa minY request historical t).isSome = eligibleTopic minY historical t := by
  unfold predict_topic eligibleTopic
  cases hl : historical.lookup t with
  | none => rfl
  | some d =>
    by_cases hlen : d.length < minY
    · simp [hlen]
    · have hok : classical_prediction t d request.confidence_level (sfun d) =
          .ok (classicalOk t d request.confidence_level (sfun d)) := by
        unfold classical_prediction
        rw [if_neg (by omega)]
      simp only [if_neg hlen]
      by_cases hb : (qa && !request.force_classical) = true
      · simp only [if_pos hb]
        cases hqr : quantum t d request.confidence_level with
        | ok r => simp [hlen]
        | error e => simp [hlen, hok]
      · simp only [if_neg hb]
        simp [hlen, hok]

/-! ### Claim theorems -/

/-- C10: for every series of length ≥ 2, the quantum estimator labels the
trend `"increasing"` exactly when the last observation is strictly greater
than the second-to-last, and `"decreasing"` in every other case (including
equal last two observations); a quantum-path result never carries `"stable"`
for a series long enough to be estimated. -/
theorem c10_quantum_trend_dichotomy (topic : String) (data : List ℚ)
    (confidence_level eigenvalue sigma : ℚ) (h2 : 2 ≤ data.length) :
    ((quantum_prediction topic data confidence_level eigenvalue sigma).trend =
        "increasing" ↔
      data.getD (data.length - 2) 0 < data.getD (data.length - 1) 0) ∧
    ((quantum_prediction topic data confidence_level eigenvalue sigma).trend =
        "decreasing" ↔
      ¬ data.getD (data.length - 2) 0 < data.getD (data.length - 1) 0) ∧
    (quantum_prediction topic data confidence_level eigenvalue sigma).trend ≠
      "stable" := by
  have ht : (quantum_prediction topic data confidence_level eigenvalue sigma).trend
      = quantumTrend data := rfl
  rw [ht]
  unfold quantumTrend
  rw [if_pos h2]
  by_cases hlt : data.getD (data.length - 2) 0 < data.getD (data.length - 1) 0
  · rw [if_pos hlt]
    refine ⟨⟨fun _ => hlt, fun _ => rfl⟩, ⟨fun h => absurd h (by decide), fun h => absurd hlt h⟩, by decide⟩
  · rw [if_neg hlt]
    refine ⟨⟨fun h => absurd h (by decide), fun h => absurd h hlt⟩, ⟨fun _ => hlt, fun _ => rfl⟩, by decide⟩

/-- Witness for C10 at the concrete series `[1, 3]` (strictly increasing
tail), discharging the length hypothesis. -/
theorem c10_witness :
    2 ≤ ([(1 : ℚ), 3] : List ℚ).length ∧
    (quantum_prediction "t" [(1 : ℚ), 3] (1/2) 0 1).trend = "increasing" := by
  refine ⟨by decide, ?_⟩
  exact (c10_quantum_trend_dichotomy "t" [(1 : ℚ), 3] (1/2) 0 1 (by decide)).1.mpr
    (by norm_num)

/-- C7: for every series of length ≥ 2 and every confidence level, the
quantum estimator's confidence interval is
`importance ± 1.96 · (std(data) / len(data)) · (1 − confidence_level)`,
clamped to `[0, 1]` (and, as the source does, rounded to 4 decimals), where
`std(data)` is the standard deviation of the *input series* — `sigma` is tied
to `popVariance data` by the hypotheses — and `importance` is the rescaled
eigenvalue `clamp((eigenvalue + 2)/4, 0, 1)`; the optimizer's own variance
never enters. -/
theorem c7_quantum_interval_formula (topic : String) (data : List ℚ)
    (confidence_level eigenvalue sigma : ℚ) (h2 : 2 ≤ data.length)
    (hs : 0 ≤ sigma) (hsq : sigma ^ 2 = popVariance data) :
    (quantum_prediction topic data confidence_level eigenvalue sigma).confidence_interval =
      (round4 (max 0 (min 1 (max 0 ((eigenvalue + 2) / 4)) -
          (49/25) * (sigma / (data.length : ℚ)) * (1 - confidence_level))),
       round4 (min 1 (min 1 (max 0 ((eigenvalue + 2) / 4)) +
          (49/25) * (sigma / (data.length : ℚ)) * (1 - confidence_level)))) := by
  unfold quantum_prediction
  have hlen : 1 < data.length := lt_of_lt_of_le (by norm_num) h2
  simp only [if_pos hlen]

/-- Witness for C7 at the series `[1, 3]` (`popVariance = 1`, so
`sigma = 1` is the exact standard deviation), eigenvalue `0` and confidence
level `1/2`: the interval evaluates to `(0.01, 0.99)`. -/
theorem c7_witness :
    2 ≤ ([(1 : ℚ), 3] : List ℚ).length ∧ (0 : ℚ) ≤ 1 ∧
    (1 : ℚ) ^ 2 = popVariance [(1 : ℚ), 3] ∧
    (quantum_prediction "t" [(1 : ℚ), 3] (1/2) 0 1).confidence_interval =
      (1/100, 99/100) := by
  refine ⟨by decide, by norm_num, by norm_num [popVariance], ?_⟩
  have h := c7_quantum_interval_formula "t" [(1 : ℚ), 3] (1/2) 0 1 (by decide)
    (by norm_num) (by norm_num [popVariance])
  rw [h]
  norm_num [round4, roundHalfEven, max_def, min_def]

/-- C9: the classical estimator is deterministic and stateless: a batch that
asks for the same topic twice (forced classical) produces two bit-identical
results — the same `classicalOk` record, with the same importance, interval,
trend and method, in both slots.  The embedding of
`_classical_prediction` is a pure function of `(topic, data,
confidence_level)` and the series' standard error, so no randomness or hidden
state can enter. -/
theorem c9_classical_deterministic (quantum : Estimator) (sfun : List ℚ → ℚ)
    (qa : Bool) (minY hy : ℕ) (t : String) (data : List ℚ)
    (confidence_level : ℚ) (historical : List (String × List ℚ))
    (hlook : historical.lookup t = some data)
    (hlen : ¬ data.length < minY) (h2 : 2 ≤ data.length) :
    (predict_topics quantum (fun t' d c => classical_prediction t' d c (sfun d))
        qa minY
        { topics := [t, t], historical_years := hy,
          confidence_level := confidence_level, force_classical := true }
        historical).predictions =
      [classicalOk t data confidence_level (sfun data),
       classicalOk t data confidence_level (sfun data)] := by
  have hcl : classical_prediction t data confidence_level (sfun data) =
      .ok (classicalOk t data confidence_level (sfun data)) := by
    unfold classical_prediction
    rw [if_neg (by omega)]
  have hstep : predict_topic quantum
      (fun t' d c => classical_prediction t' d c (sfun d)) qa minY
      { topics := [t, t], historical_years := hy,
        confidence_level := confidence_level, force_classical := true }
      historical t = some (classicalOk t data confidence_level (sfun data)) := by
    simp only [predict_topic, hlook, Bool.not_true, Bool.and_false, if_neg hlen, hcl]
    simp
  unfold predict_topics
  simp [List.filterMap_cons, hstep]

/-- Witness for C9: the topic `"qm"` with series `[10, 20, 30]` (exact fit,
standard error 0) requested twice in one forced-classical batch yields the
same result twice. -/
theorem c9_witness :
    (predict_topics (fun _ _ _ => .error .quantumFailure)
        (fun t' d c => classical_prediction t' d c ((fun _ => (0 : ℚ)) d))
        true 3
        { topics := ["qm", "qm"], historical_years := 5,
          confidence_level := 95/100, force_classical := true }
        [("qm", [10, 20, 30])]).predictions =
      [classicalOk "qm" [10, 20, 30] (95/100) 0,
       classicalOk "qm" [10, 20, 30] (95/100) 0] := by
  exact c9_classical_deterministic (fun _ _ _ => .error .quantumFailure)
    (fun _ => 0) true 3 5 "qm" [10, 20, 30] (95/100) [("qm", [10, 20, 30])]
    (by decide) (by decide) (by decide)

/-! Evaluation lemmas for the concrete series used around claim C3.
Both series lie exactly on a line, so the residuals and the standard error
are exactly 0 (also in floating point, up to the least significant bits). -/

theorem slope_series100 : slope [(100 : ℚ), 200, 300] = 100 := by
  simp [slope, sumXY, sumX, sumX2, sumY, List.enum, List.enumFrom, List.range_succ]
  norm_num

theorem intercept_series100 : intercept [(100 : ℚ), 200, 300] = 100 := by
  simp [intercept, slope_series100, sumX, sumY, List.range_succ]
  norm_num

theorem predictedNext_series100 : predictedNext [(100 : ℚ), 200, 300] = 400 := by
  simp [predictedNext, slope_series100, intercept_series100]
  norm_num

theorem stdErrSq_series100 : stdErrSq [(100 : ℚ), 200, 300] = 0 := by
  simp [stdErrSq, residuals, slope_series100, intercept_series100,
    List.enum, List.enumFrom]
  norm_num

theorem slope_series012 : slope [(0 : ℚ), 1, 2] = 1 := by
  simp [slope, sumXY, sumX, sumX2, sumY, List.enum, List.enumFrom, List.range_succ]
  norm_num

theorem intercept_series012 : intercept [(0 : ℚ), 1, 2] = 0 := by
  norm_num [intercept, slope_series012, sumX, sumY, List.range_succ]

theorem predictedNext_series012 : predictedNext [(0 : ℚ), 1, 2] = 3 := by
  norm_num [predictedNext, slope_series012, intercept_series012]

theorem stdErrSq_series012 : stdErrSq [(0 : ℚ), 1, 2] = 0 := by
  norm_num [stdErrSq, residuals, slope_series012, intercept_series012,
    List.enum, List.enumFrom]

/-- C3 counterexample: for the series `[100, 200, 300]` the fitted line is
`y = 100·x + 100` with zero residuals, so the standard error is exactly 0
(as the hypothesis-free first conjunct records); the predicted next value is
400, the importance clamps to 1, but the lower interval bound
`max(0, (400 − 0)/100) = 4` is never capped at 1, so the interval is
`(4, 1)` and `lower ≤ importance` fails. -/
theorem c3_counterexample :
    stdErrSq [(100 : ℚ), 200, 300] = 0 ∧
    (classicalOk "t" [(100 : ℚ), 200, 300] (95/100) 0).importance = 1 ∧
    (classicalOk "t" [(100 : ℚ), 200, 300] (95/100) 0).confidence_interval = (4, 1) ∧
    ¬ ((classicalOk "t" [(100 : ℚ), 200, 300] (95/100) 0).confidence_interval.1 ≤
        (classicalOk "t" [(100 : ℚ), 200, 300] (95/100) 0).importance) := by
  have hci : (classicalOk "t" [(100 : ℚ), 200, 300] (95/100) 0).confidence_interval
      = (4, 1) := by
    simp [classicalOk, predictedNext_series100]
    norm_num [round4, roundHalfEven, max_def, min_def]
  have himp : (classicalOk "t" [(100 : ℚ), 200, 300] (95/100) 0).importance = 1 := by
    simp [classicalOk, predictedNext_series100]
    norm_num [round4, roundHalfEven, max_def, min_def]
  refine ⟨stdErrSq_series100, himp, hci, ?_⟩
  rw [hci, himp]
  norm_num

/-- C3 (amended): for every series of length ≥ 2, the chain
`0 ≤ lower ≤ importance ≤ upper ≤ 1` holds provided the unclamped interval
`predicted ± 1.96·stderr` meets `[0, 100]` (the length-2 case is
unconditional: there the standard error degenerates and the interval is
`(0, 1)`); the hypotheses tie `s` to the source's
`np.std(residuals, ddof=2)`.  Without that proviso the chain can fail
(`c3_counterexample`). -/
theorem c3_classical_interval_bounds (topic : String) (data : List ℚ)
    (confidence_level s : ℚ) (h2 : 2 ≤ data.length) (hs : 0 ≤ s)
    (hsq : s ^ 2 = stdErrSq data)
    (hmeet : data.length = 2 ∨
      (predictedNext data - (49/25) * s ≤ 100 ∧
       0 ≤ predictedNext data + (49/25) * s)) :
    0 ≤ (classicalOk topic data confidence_level s).confidence_interval.1 ∧
    (classicalOk topic data confidence_level s).confidence_interval.1 ≤
      (classicalOk topic data confidence_level s).importance ∧
    (classicalOk topic data confidence_level s).importance ≤
      (classicalOk topic data confidence_level s).confidence_interval.2 ∧
    (classicalOk topic data confidence_level s).confidence_interval.2 ≤ 1 := by
  have himp0 : (0 : ℚ) ≤ min 1 (max 0 (predictedNext data / 100)) :=
    le_min (by norm_num) (le_max_left 0 _)
  have himp1 : min 1 (max 0 (predictedNext data / 100)) ≤ 1 := min_le_left _ _
  by_cases hn : data.length = 2
  · simp only [classicalOk, if_pos hn]
    exact ⟨le_refl 0, round4_nonneg himp0, round4_le_one himp1, le_refl 1⟩
  · obtain ⟨hm1, hm2⟩ := hmeet.resolve_left hn
    simp only [classicalOk, if_neg hn]
    have hmarg : (0 : ℚ) ≤ (49/25) * s := by linarith
    refine ⟨round4_nonneg (le_max_left 0 _), round4_mono ?_, round4_mono ?_,
      round4_le_one (min_le_left _ _)⟩
    · refine le_min (max_le (by norm_num) (by linarith)) ?_
      exact max_le (le_max_left 0 _)
        (le_trans (by linarith : (predictedNext data - 49/25 * s) / 100 ≤
          predictedNext data / 100) (le_max_right 0 _))
    · refine min_le_min (le_refl 1) (max_le (by linarith) (by linarith))

/-- Witness for C3 (amended) at the series `[0, 1, 2]` with exact standard
error 0: all hypotheses hold and the interval chain evaluates. -/
theorem c3_witness :
    2 ≤ ([(0 : ℚ), 1, 2] : List ℚ).length ∧ (0 : ℚ) ≤ 0 ∧
    (0 : ℚ) ^ 2 = stdErrSq [(0 : ℚ), 1, 2] ∧
    (predictedNext [(0 : ℚ), 1, 2] - (49/25) * 0 ≤ 100 ∧
      0 ≤ predictedNext [(0 : ℚ), 1, 2] + (49/25) * 0) ∧
    (0 ≤ (classicalOk "t" [(0 : ℚ), 1, 2] (95/100) 0).confidence_interval.1 ∧
     (classicalOk "t" [(0 : ℚ), 1, 2] (95/100) 0).confidence_interval.1 ≤
       (classicalOk "t" [(0 : ℚ), 1, 2] (95/100) 0).importance ∧
     (classicalOk "t" [(0 : ℚ), 1, 2] (95/100) 0).importance ≤
       (classicalOk "t" [(0 : ℚ), 1, 2] (95/100) 0).confidence_interval.2 ∧
     (classicalOk "t" [(0 : ℚ), 1, 2] (95/100) 0).confidence_interval.2 ≤ 1) := by
  refine ⟨by decide, le_refl 0, by rw [stdErrSq_series012]; norm_num,
    by rw [predictedNext_series012]; norm_num, ?_⟩
  exact c3_classical_interval_bounds "t" [(0 : ℚ), 1, 2] (95/100) 0
    (by decide) (le_refl 0) (by rw [stdErrSq_series012]; norm_num)
    (Or.inr (by rw [predictedNext_series012]; norm_num))

/-! Evaluation lemmas for the series `[10, 20, 30]` (exact fit
`y = 10·x + 10`, standard error exactly 0), used by several witnesses. -/

theorem slope_series102030 : slope [(10 : ℚ), 20, 30] = 10 := by
  simp [slope, sumXY, sumX, sumX2, sumY, List.enum, List.enumFrom, List.range_succ]
  norm_num

theorem intercept_series102030 : intercept [(10 : ℚ), 20, 30] = 10 := by
  norm_num [intercept, slope_series102030, sumX, sumY, List.range_succ]

theorem predictedNext_series102030 : predictedNext [(10 : ℚ), 20, 30] = 40 := by
  norm_num [predictedNext, slope_series102030, intercept_series102030]

theorem stdErrSq_series102030 : stdErrSq [(10 : ℚ), 20, 30] = 0 := by
  norm_num [stdErrSq, residuals, slope_series102030, intercept_series102030,
    List.enum, List.enumFrom]

theorem classicalOk_series102030 (topic : String) (conf : ℚ) :
    classicalOk topic [(10 : ℚ), 20, 30] conf 0 =
      ⟨topic, 2/5, (2/5, 2/5), "increasing", "classical"⟩ := by
  simp [classicalOk, predictedNext_series102030, classicalTrend, slope_series102030]
  norm_num [round4, roundHalfEven, max_def, min_def]

/-- C1 (code bug evidence): a batch that explicitly forces classical
(`force_classical = true`) and whose one topic succeeds classically gets
method `"classical"` — and yet `fallback_used = true`, because the source
computes the flag as `any(p.method in ["classical", "classical_fallback"])`,
which cannot tell a forced-classical success from a fallback.  The spec (and
the endpoint's own `fallback_used = False  # Explicit request, not a
fallback`) requires `false` here.  The standard error 0 passed to the
estimator is exact for this series (`stdErrSq_series102030`). -/
theorem c1_forced_classical_flagged_as_fallback :
    (predict_topics (fun _ _ _ => .error .quantumFailure)
        (fun t' d c => classical_prediction t' d c 0)
        true 3 ⟨["qm"], 5, 95/100, true⟩ [("qm", [10, 20, 30])]).predictions =
      [⟨"qm", 2/5, (2/5, 2/5), "increasing", "classical"⟩] ∧
    (predict_topics (fun _ _ _ => .error .quantumFailure)
        (fun t' d c => classical_prediction t' d c 0)
        true 3 ⟨["qm"], 5, 95/100, true⟩ [("qm", [10, 20, 30])]).fallback_used
      = true := by
  have hstep : predict_topic (fun _ _ _ => .error .quantumFailure)
      (fun t' d c => classical_prediction t' d c 0) true 3
      ⟨["qm"], 5, 95/100, true⟩ [("qm", [10, 20, 30])] "qm" =
      some (classicalOk "qm" [(10 : ℚ), 20, 30] (95/100) 0) := by
    simp [predict_topic, List.lookup, classical_prediction]
  constructor
  · simp [predict_topics, List.filterMap_cons, hstep, classicalOk_series102030]
  · simp [predict_topics, List.filterMap_cons, hstep, classicalOk_series102030]

/-- C2 counterexample: at confidence level 0.95 the endpoint's hybrid
prediction carries contributions `(0.9, 0.1)` and the hardcoded uncertainty
triple `(0.05, 0.03, 0.04)`; the blended value 0.04 differs from the
contribution-weighted sum `0.9·0.05 + 0.1·0.03 = 0.048` by `0.008`, far
outside the claimed `1e-6` tolerance. -/
theorem c2_counterexample :
    (build_api_prediction "hybrid" (95/100) "qm"
        (some [15, 18, 22, 25, 28])).quantum_contribution = some (9/10) ∧
    (build_api_prediction "hybrid" (95/100) "qm"
        (some [15, 18, 22, 25, 28])).classical_contribution = some (1/10) ∧
    (build_api_prediction "hybrid" (95/100) "qm"
        (some [15, 18, 22, 25, 28])).uncertainty_quantification
      = some (1/20, 3/100, 1/25) ∧
    ¬ (|(1/25 : ℚ) - ((9/10) * (1/20) + (1/10) * (3/100))| ≤ 1/1000000) := by
  have habs : |(1/25 : ℚ) - ((9/10) * (1/20) + (1/10) * (3/100))| = 1/125 := by
    have he : (1/25 : ℚ) - ((9/10) * (1/20) + (1/10) * (3/100)) = -(1/125) := by
      norm_num
    rw [he, abs_neg, abs_of_pos]
    norm_num
  refine ⟨?_, ?_, ?_, ?_⟩
  · simp [build_api_prediction, hybrid_contributions]
  · simp [build_api_prediction, hybrid_contributions]
  · simp [build_api_prediction]
  · rw [habs]
    norm_num

/-- C2 (amended): every hybrid prediction of the endpoint carries
contributions from the step table with `quantum + classical = 1` exactly, and
the constant uncertainty triple `(0.05, 0.03, 0.04)`; the blended value is
within `0.01` of the contribution-weighted sum (the tolerance the repo's own
integration test uses — the discrepancy is up to `0.008`), but in every
weight branch it exceeds the claimed `1e-6` tolerance. -/
theorem c2_hybrid_contributions_and_uncertainty (confidence_level : ℚ)
    (topic : String) (freqs : Option (List ℚ)) :
    (build_api_prediction "hybrid" confidence_level topic freqs).quantum_contribution
      = some (hybrid_contributions confidence_level).1 ∧
    (build_api_prediction "hybrid" confidence_level topic freqs).classical_contribution
      = some (hybrid_contributions confidence_level).2 ∧
    (hybrid_contributions confidence_level).1 +
      (hybrid_contributions confidence_level).2 = 1 ∧
    (build_api_prediction "hybrid" confidence_level topic
        freqs).uncertainty_quantification = some (1/20, 3/100, 1/25) ∧
    |(1/25 : ℚ) - ((hybrid_contributions confidence_level).1 * (1/20) +
        (hybrid_contributions confidence_level).2 * (3/100))| ≤ 1/100 ∧
    ¬ (|(1/25 : ℚ) - ((hybrid_contributions confidence_level).1 * (1/20) +
        (hybrid_contributions confidence_level).2 * (3/100))| ≤ 1/1000000) := by
  refine ⟨by simp [build_api_prediction], by simp [build_api_prediction],
    ?_, ?_, ?_, ?_⟩
  · unfold hybrid_contributions
    split_ifs <;> norm_num
  · simp [build_api_prediction]
  · unfold hybrid_contributions
    split_ifs <;> exact abs_le.mpr ⟨by norm_num, by norm_num⟩
  · unfold hybrid_contributions
    split_ifs <;> rw [not_le, lt_abs] <;> norm_num

/-- C4: when the quantum estimator raises on a topic (quantum available,
classical not forced), the orchestrator retries that topic with the classical
estimator in-line: on classical success the topic's result is the classical
one tagged `"classical_fallback"` and the batch flag `fallback_used` is true,
with the surrounding topics' results exactly those of the corresponding
sub-batches; if the classical recovery also fails, the topic is omitted and
the batch still returns the other topics' results (the loop is total — it
never raises). -/
theorem c4_quantum_failure_fallback (quantum classical : Estimator)
    (minY : ℕ) (request : PredictionRequest)
    (historical : List (String × List ℚ)) (l1 l2 : List String) (t : String)
    (data : List ℚ) (e : PredictionError)
    (htopics : request.topics = l1 ++ t :: l2)
    (hlook : historical.lookup t = some data)
    (hlen : ¬ data.length < minY)
    (hforce : request.force_classical = false)
    (hq : quantum t data request.confidence_level = .error e) :
    (∀ r, classical t data request.confidence_level = .ok r →
      (predict_topics quantum classical true minY request historical).predictions =
        (predict_topics quantum classical true minY { request with topics := l1 }
          historical).predictions ++
        ({ r with method := "classical_fallback" } ::
         (predict_topics quantum classical true minY { request with topics := l2 }
           historical).predictions) ∧
      (predict_topics quantum classical true minY request historical).fallback_used
        = true) ∧
    (∀ e2, classical t data request.confidence_level = .error e2 →
      (predict_topics quantum classical true minY request historical).predictions =
        (predict_topics quantum classical true minY { request with topics := l1 }
          historical).predictions ++
        (predict_topics quantum classical true minY { request with topics := l2 }
          historical).predictions) := by
  constructor
  · intro r hr
    have hstep : predict_topic quantum classical true minY request historical t =
        some { r with method := "classical_fallback" } := by
      simp only [predict_topic, hlook, hforce, Bool.not_false, Bool.and_self,
        if_neg hlen, if_pos rfl, hq, hr]
      simp
    constructor
    · show (request.topics.filterMap
          (predict_topic quantum classical true minY request historical)) = _
      rw [htopics, List.filterMap_append, List.filterMap_cons]
      rw [hstep]
      rw [predict_topics_congr_topics, predict_topics_congr_topics]
    · show (request.topics.filterMap
          (predict_topic quantum classical true minY request historical)).any _
        = true
      rw [htopics, List.filterMap_append, List.filterMap_cons, hstep]
      simp [List.any_append]
  · intro e2 he2
    have hstep : predict_topic quantum classical true minY request historical t =
        none := by
      simp only [predict_topic, hlook, hforce, Bool.not_false, Bool.and_self,
        if_neg hlen, hq, he2]
      simp
    show (request.topics.filterMap
        (predict_topic quantum classical true minY request historical)) = _
    rw [htopics, List.filterMap_append, List.filterMap_cons, hstep]
    rw [predict_topics_congr_topics, predict_topics_congr_topics]

/-- Witness for C4: three topics, the quantum oracle failing everywhere and
a constant classical oracle; every topic (in particular the middle one) comes
back tagged `"classical_fallback"` and the batch flag is true. -/
theorem c4_witness :
    (predict_topics (fun _ _ _ => .error .quantumFailure)
        (fun t' _ _ => .ok ⟨t', 1/2, (2/5, 3/5), "increasing", "classical"⟩)
        true 3 ⟨["a", "b", "c"], 5, 95/100, false⟩
        [("a", [1, 2, 3]), ("b", [4, 5, 6]), ("c", [7, 8, 9])]).predictions =
      [⟨"a", 1/2, (2/5, 3/5), "increasing", "classical_fallback"⟩,
       ⟨"b", 1/2, (2/5, 3/5), "increasing", "classical_fallback"⟩,
       ⟨"c", 1/2, (2/5, 3/5), "increasing", "classical_fallback"⟩] ∧
    (predict_topics (fun _ _ _ => .error .quantumFailure)
        (fun t' _ _ => .ok ⟨t', 1/2, (2/5, 3/5), "increasing", "classical"⟩)
        true 3 ⟨["a", "b", "c"], 5, 95/100, false⟩
        [("a", [1, 2, 3]), ("b", [4, 5, 6]), ("c", [7, 8, 9])]).fallback_used
      = true := by
  have h := (c4_quantum_failure_fallback (fun _ _ _ => .error .quantumFailure)
      (fun t' _ _ => .ok ⟨t', 1/2, (2/5, 3/5), "increasing", "classical"⟩)
      3 ⟨["a", "b", "c"], 5, 95/100, false⟩
      [("a", [1, 2, 3]), ("b", [4, 5, 6]), ("c", [7, 8, 9])]
      ["a"] ["c"] "b" [4, 5, 6] .quantumFailure
      rfl (by simp [List.lookup]) (by decide) rfl rfl).1
      ⟨"b", 1/2, (2/5, 3/5), "increasing", "classical"⟩ rfl
  refine ⟨h.1.trans ?_, h.2⟩
  simp [predict_topics, predict_topic, List.lookup]

/-- C5: with quantum available and classical not forced, the endpoint's
method selection chooses `"quantum"` (never a fallback, and the quantum
prediction carries no blend weights) exactly when the requested confidence
level is ≥ 0.99, and `"hybrid"` otherwise with the blend weights of the step
table: ≥0.95 → (0.9, 0.1), ≥0.90 → (0.7, 0.3), ≥0.85 → (0.6, 0.4), else
(0.4, 0.6); the selection is independent of the endpoint's mutable request
counter, so identical inputs always yield the same method and weights. -/
theorem c5_method_selection_policy (request_count request_count2 : ℕ)
    (confidence_level : ℚ) (topic : String) (freqs : Option (List ℚ)) :
    (select_method request_count false true confidence_level =
      select_method request_count2 false true confidence_level) ∧
    (99/100 ≤ confidence_level →
      select_method request_count false true confidence_level = ("quantum", false) ∧
      (build_api_prediction "quantum" confidence_level topic freqs).quantum_contribution
        = none ∧
      (build_api_prediction "quantum" confidence_level topic freqs).classical_contribution
        = none) ∧
    (confidence_level < 99/100 →
      select_method request_count false true confidence_level = ("hybrid", false) ∧
      (build_api_prediction "hybrid" confidence_level topic freqs).quantum_contribution
        = some (hybrid_contributions confidence_level).1 ∧
      (build_api_prediction "hybrid" confidence_level topic freqs).classical_contribution
        = some (hybrid_contributions confidence_level).2) ∧
    (95/100 ≤ confidence_level →
      hybrid_contributions confidence_level = (9/10, 1/10)) ∧
    (9/10 ≤ confidence_level → confidence_level < 95/100 →
      hybrid_contributions confidence_level = (7/10, 3/10)) ∧
    (85/100 ≤ confidence_level → confidence_level < 9/10 →
      hybrid_contributions confidence_level = (6/10, 4/10)) ∧
    (confidence_level < 85/100 →
      hybrid_contributions confidence_level = (4/10, 6/10)) := by
  refine ⟨rfl, ?_, ?_, ?_, ?_, ?_, ?_⟩
  · intro h
    refine ⟨by simp [select_method, if_pos h], ?_, ?_⟩ <;>
      simp [build_api_prediction]
  · intro h
    refine ⟨by simp [select_method, not_le.mpr h], ?_, ?_⟩ <;>
      simp [build_api_prediction]
  · intro h
    simp [hybrid_contributions, if_pos h]
  · intro h1 h2
    simp [hybrid_contributions, h1, not_le.mpr h2]
  · intro h1 h2
    have : ¬ (95/100 : ℚ) ≤ confidence_level := by linarith
    simp [hybrid_contributions, h1, this, not_le.mpr h2]
  · intro h
    have h1 : ¬ (95/100 : ℚ) ≤ confidence_level := by linarith
    have h2 : ¬ (9/10 : ℚ) ≤ confidence_level := by linarith
    simp [hybrid_contributions, h1, h2, not_le.mpr h]

/-- Witness for C5 at confidence level 0.97: hybrid with weights
(0.9, 0.1). -/
theorem c5_witness :
    select_method 0 false true (97/100) = ("hybrid", false) ∧
    hybrid_contributions (97/100) = (9/10, 1/10) ∧
    (build_api_prediction "hybrid" (97/100) "t" none).quantum_contribution
      = some (9/10) := by
  have h := c5_method_selection_policy 0 1 (97/100) "t" none
  have hh := h.2.2.1 (by norm_num)
  have hw := h.2.2.2.1 (by norm_num)
  refine ⟨hh.1, hw, ?_⟩
  rw [hh.2.1, hw]

/-- C6: a requested topic that is absent from the historical data, or whose
series is shorter than the minimum-years threshold, contributes no prediction
and raises no error: the batch result is exactly the concatenation of the
results for the topics before and after it. -/
theorem c6_ineligible_topics_skipped (quantum classical : Estimator) (qa : Bool)
    (minY : ℕ) (request : PredictionRequest)
    (historical : List (String × List ℚ)) (l1 l2 : List String) (t : String)
    (htopics : request.topics = l1 ++ t :: l2)
    (habsent : historical.lookup t = none ∨
      ∃ d, historical.lookup t = some d ∧ d.length < minY) :
    (predict_topics quantum classical qa minY request historical).predictions =
      (predict_topics quantum classical qa minY { request with topics := l1 }
        historical).predictions ++
      (predict_topics quantum classical qa minY { request with topics := l2 }
        historical).predictions := by
  have hstep : predict_topic quantum classical qa minY request historical t
      = none := by
    rcases habsent with h | ⟨d, hd, hshort⟩
    · exact predict_topic_of_absent quantum classical qa minY request historical t h
    · exact predict_topic_of_short quantum classical qa minY request historical
        t d hd hshort
  show (request.topics.filterMap
      (predict_topic quantum classical qa minY request historical)) = _
  rw [htopics, List.filterMap_append, List.filterMap_cons, hstep]
  rw [predict_topics_congr_topics, predict_topics_congr_topics]

/-- Witness for C6, the spec's scenario: two topics, one present with a
sufficient series and one absent — the response holds exactly one result. -/
theorem c6_witness :
    ([("present", [10, 20, 30])] : List (String × List ℚ)).lookup "absent"
      = none ∧
    (predict_topics (fun _ _ _ => .error .quantumFailure)
        (fun t' d c => classical_prediction t' d c 0)
        true 3 ⟨["present", "absent"], 5, 95/100, true⟩
        [("present", [10, 20, 30])]).predictions =
      [⟨"present", 2/5, (2/5, 2/5), "increasing", "classical"⟩] := by
  refine ⟨by simp [List.lookup], ?_⟩
  have h := c6_ineligible_topics_skipped (fun _ _ _ => .error .quantumFailure)
      (fun t' d c => classical_prediction t' d c 0) true 3
      ⟨["present", "absent"], 5, 95/100, true⟩
      [("present", [10, 20, 30])] ["present"] [] "absent"
      rfl (Or.inl (by simp [List.lookup]))
  refine h.trans ?_
  have hstep : predict_topic (fun _ _ _ => .error .quantumFailure)
      (fun t' d c => classical_prediction t' d c 0) true 3
      ⟨["present", "absent"], 5, 95/100, true⟩
      [("present", [10, 20, 30])] "present" =
      some (classicalOk "present" [(10 : ℚ), 20, 30] (95/100) 0) := by
    simp [predict_topic, List.lookup, classical_prediction]
  rw [predict_topics_congr_topics (fun _ _ _ => .error .quantumFailure)
      (fun t' d c => classical_prediction t' d c 0) true 3
      ⟨["present", "absent"], 5, 95/100, true⟩ [("present", [10, 20, 30])]
      ["present"],
    predict_topics_congr_topics (fun _ _ _ => .error .quantumFailure)
      (fun t' d c => classical_prediction t' d c 0) true 3
      ⟨["present", "absent"], 5, 95/100, true⟩ [("present", [10, 20, 30])] []]
  simp [List.filterMap_cons, hstep, classicalOk_series102030]

/-- C8: the classical estimator fails with its insufficient-data error
exactly on series of fewer than 2 observations, and that failure is
unreachable through the orchestrator: whenever the minimum-years threshold is
at least 2 (the configured default is 3), the batch emits exactly one result
per eligible topic — no topic is ever lost to an insufficient-data error,
whatever the quantum estimator does. -/
theorem c8_insufficient_data_unreachable (quantum : Estimator)
    (sfun : List ℚ → ℚ) (qa : Bool) (minY : ℕ) (request : PredictionRequest)
    (historical : List (String × List ℚ)) (conf s : ℚ) (topic : String)
    (hmin : 2 ≤ minY) :
    (∀ data : List ℚ,
      (∃ e, classical_prediction topic data conf s = .error e) ↔
        data.length < 2) ∧
    (predict_topics quantum (fun t' d c => classical_prediction t' d c (sfun d))
        qa minY request historical).predictions.length =
      (request.topics.filter (eligibleTopic minY historical)).length := by
  constructor
  · intro data
    constructor
    · rintro ⟨e, he⟩
      by_contra hge
      simp [classical_prediction, hge] at he
    · intro h2
      exact ⟨.insufficientData, by simp [classical_prediction, h2]⟩
  · show (request.topics.filterMap _).length = _
    generalize request.topics = l
    induction l with
    | nil => rfl
    | cons a l ih =>
      rw [List.filterMap_cons, List.filter_cons]
      have hk := predict_topic_isSome_eq quantum sfun qa minY request historical
        a hmin
      cases hs : predict_topic quantum
          (fun t' d c => classical_prediction t' d c (sfun d)) qa minY request
          historical a with
      | none =>
        rw [hs] at hk
        rw [← hk]
        simpa using ih
      | some r =>
        rw [hs] at hk
        rw [← hk]
        simpa using ih

/-- Witness for C8: threshold 3 ≥ 2; a singleton series triggers the
insufficient-data error, and the two-topic batch (one eligible topic) emits
exactly one prediction. -/
theorem c8_witness :
    2 ≤ 3 ∧
    ((∃ e, classical_prediction "t" [(5 : ℚ)] (95/100) 0 = .error e) ↔
      ([(5 : ℚ)] : List ℚ).length < 2) ∧
    (predict_topics (fun _ _ _ => .error .quantumFailure)
        (fun t' d c => classical_prediction t' d c 0)
        true 3 ⟨["present", "absent"], 5, 95/100, false⟩
        [("present", [10, 20, 30])]).predictions.length =
      (["present", "absent"].filter
        (eligibleTopic 3 [("present", [10, 20, 30])])).length ∧
    (["present", "absent"].filter
        (eligibleTopic 3 [("present", [10, 20, 30])])).length = 1 := by
  have h := c8_insufficient_data_unreachable
      (fun _ _ _ => .error .quantumFailure) (fun _ => 0) true 3
      ⟨["present", "absent"], 5, 95/100, false⟩ [("present", [10, 20, 30])]
      (95/100) 0 "t" (by norm_num)
  exact ⟨by norm_num, h.1 [(5 : ℚ)], h.2,
    by simp [eligibleTopic, List.lookup, List.filter]⟩

end VQE
